import Mathlib

/-!
Verification of the eco-route fuel-estimation and ranking engine.

The definitions below are a shallow embedding of `src/backend/server.js`.
JavaScript numbers are modelled as `Option ℚ`: `some q` is the finite
value `q` (the concrete values the service manipulates are small decimal
fractions, where IEEE doubles and rationals agree on every rounding
decision checked here) and `none` is NaN, which arises when the vehicle
lookup hits a property inherited from `Object.prototype` (a truthy
function or object whose numeric fields are undefined). `toFixed` and
`Math.round` follow the ECMAScript algorithms (nearest, ties toward the
larger magnitude for `toFixed`, ties toward positive infinity for
`Math.round`; `NaN.toFixed` is `"NaN"`), and the stable
`Array.prototype.sort` is modelled by a stable insertion sort whose
comparisons follow `SortCompare` (a NaN comparator result counts as 0).
-/

/-- A route candidate as delivered by the OSRM routing service:
`distance` in meters, `duration` in seconds, plus an opaque geometry
payload that the engine passes through untouched (modelled by a tag). -/
structure RouteCandidate where
  distance : ℚ
  duration : ℚ
  geometry : ℕ
deriving Repr, DecidableEq

/-- A vehicle profile of the registry: `baseConsumption` in liters per
100 km, `optimalSpeed` in km/h, and the (unused) `dragFactor`. -/
structure VehicleProfile where
  baseConsumption : ℚ
  optimalSpeed : ℚ
  dragFactor : ℚ
deriving Repr, DecidableEq

/-- The own properties of the `VEHICLES` object literal of `server.js`
(lines 24-40): the three published categories; any other key is not an own
property. -/
def VEHICLES (key : String) : Option VehicleProfile :=
  if key = "motorbike" then some ⟨5/2, 50, 1/20⟩
  else if key = "car" then some ⟨7, 80, 1/10⟩
  else if key = "truck" then some ⟨15, 70, 1/5⟩
  else none

/-- The `car` profile, the designated fallback. -/
def VEHICLES_car : VehicleProfile := ⟨7, 80, 1/10⟩

/-- The property names a plain object literal inherits from
`Object.prototype`; accessing any of them on `VEHICLES` yields a truthy
function (or, for `__proto__`, the `Object.prototype` object itself),
never `undefined`. -/
def OBJECT_PROTOTYPE_KEYS : List String :=
  ["constructor", "hasOwnProperty", "isPrototypeOf", "propertyIsEnumerable",
   "toLocaleString", "toString", "valueOf", "__defineGetter__",
   "__defineSetter__", "__lookupGetter__", "__lookupSetter__", "__proto__"]

/-- What line 70 of `server.js` can bind to `vehicle`: an actual profile
object, or a truthy member inherited from `Object.prototype` (a function
or object that has none of the profile's numeric fields). -/
inductive JsVehicle where
  | profile (v : VehicleProfile)
  | inherited
deriving Repr, DecidableEq

/-- Line 70 of `server.js`: `VEHICLES[vehicleType] || VEHICLES.car`.
JavaScript property access walks the prototype chain: an own key yields
its profile; a property of `Object.prototype` (such as `"constructor"`,
`"toString"` or `"__proto__"`) yields a truthy inherited value, so the
`||` fallback does not trigger; only a genuinely absent key yields
`undefined`, which is falsy and falls back to the car profile. -/
def resolveVehicle (vehicleType : String) : JsVehicle :=
  match VEHICLES vehicleType with
  | some v => JsVehicle.profile v
  | none =>
    if vehicleType ∈ OBJECT_PROTOTYPE_KEYS then JsVehicle.inherited
    else JsVehicle.profile VEHICLES_car

/-- `vehicle.baseConsumption` in JS: undefined (modelled `none`, NaN after
arithmetic) when `vehicle` is an inherited non-profile member. -/
def JsVehicle.baseConsumptionJs : JsVehicle → Option ℚ
  | JsVehicle.profile v => some v.baseConsumption
  | JsVehicle.inherited => none

/-- `vehicle.optimalSpeed` in JS, `none` for an inherited member. -/
def JsVehicle.optimalSpeedJs : JsVehicle → Option ℚ
  | JsVehicle.profile v => some v.optimalSpeed
  | JsVehicle.inherited => none

/-- Addition of JS numbers: NaN propagates. -/
def jsAdd : Option ℚ → Option ℚ → Option ℚ
  | some a, some b => some (a + b)
  | _, _ => none

/-- Subtraction of JS numbers: NaN propagates (also `x - undefined`). -/
def jsSub : Option ℚ → Option ℚ → Option ℚ
  | some a, some b => some (a - b)
  | _, _ => none

/-- Multiplication of JS numbers: NaN propagates. -/
def jsMul : Option ℚ → Option ℚ → Option ℚ
  | some a, some b => some (a * b)
  | _, _ => none

/-- The JS `<` comparison: any comparison involving NaN (or an undefined
operand coerced to NaN) is false. -/
def jsLtB : Option ℚ → Option ℚ → Bool
  | some a, some b => decide (a < b)
  | _, _ => false

/-- The `≤` order on JS numbers as a proposition: false whenever either
side is NaN, so no NaN value is minimal for this order. -/
def jsLe : Option ℚ → Option ℚ → Prop
  | some a, some b => a ≤ b
  | _, _ => False

/-- The strict order on JS numbers as a proposition. -/
def jsLt : Option ℚ → Option ℚ → Prop
  | some a, some b => a < b
  | _, _ => False

/-- JavaScript `Math.round`: nearest integer, ties toward positive
infinity. -/
def jsRound (x : ℚ) : ℤ := ⌊x + 1/2⌋

/-- The integer `n` chosen by `Number.prototype.toFixed(f)` for the
magnitude of `x`: `n / 10^f` is nearest to `|x|`, ties to the larger `n`. -/
def toFixedInt (f : ℕ) (x : ℚ) : ℤ := ⌊|x| * (10 : ℚ) ^ f + 1/2⌋

/-- The rational value denoted by the string `x.toFixed(f)` (what
`parseFloat(x.toFixed(f))` recovers) for a finite `x`. -/
def toFixedVal (f : ℕ) (x : ℚ) : ℚ :=
  (if x < 0 then -1 else 1) * ((toFixedInt f x : ℚ) / (10 : ℚ) ^ f)

/-- The string `x.toFixed(f)` for a finite `x` in the numeric range this
service produces (magnitude far below 10^21): the decimal digits of
`toFixedInt f x`, padded and pointed per the ECMAScript algorithm, with a
sign for negative input. -/
def toFixedStr (f : ℕ) (x : ℚ) : String :=
  let n : ℕ := (toFixedInt f x).toNat
  let sign : String := if x < 0 then "-" else ""
  if f = 0 then sign ++ toString n
  else
    let s : String := toString n
    let s : String :=
      if s.length < f + 1 then
        String.mk (List.replicate (f + 1 - s.length) '0') ++ s
      else s
    sign ++ s.take (s.length - f) ++ "." ++ s.drop (s.length - f)

/-- `parseFloat(x.toFixed(f))` on a possibly-NaN number: `NaN.toFixed(f)`
is the string "NaN" and `parseFloat("NaN")` is NaN again. -/
def toFixedValJs (f : ℕ) : Option ℚ → Option ℚ := Option.map (toFixedVal f)

/-- `x.toFixed(f)` as a string on a possibly-NaN number. -/
def toFixedStrJs (f : ℕ) : Option ℚ → String
  | some x => toFixedStr f x
  | none => "NaN"

/-- The average speed computed at lines 72-76 of `server.js`:
`distanceKm / durationHr` guarded by `durationHr > 0`, else the sentinel 0.
Distance and duration come from OSRM as finite numbers, so this value is
always finite. -/
def avgSpeedOf (route : RouteCandidate) : ℚ :=
  let distanceKm := route.distance / 1000
  let durationHr := route.duration / 3600
  if durationHr > 0 then distanceKm / durationHr else 0

/-- The low-speed branch of the efficiency computation (lines 84-88) for an
actual profile: `1 + (optimalSpeed - avgSpeed) / 20 * 0.2`. -/
def trafficPenaltyFactor (vehicle : VehicleProfile) (avgSpeed : ℚ) : ℚ :=
  1 + (vehicle.optimalSpeed - avgSpeed) / 20 * (2/10)

/-- The at-or-above-optimal branch (lines 89-93) for an actual profile:
`1 + (avgSpeed - optimalSpeed) / 30 * 0.1`. -/
def dragPenaltyFactor (vehicle : VehicleProfile) (avgSpeed : ℚ) : ℚ :=
  1 + (avgSpeed - vehicle.optimalSpeed) / 30 * (1/10)

/-- The efficiency factor of lines 82-93 for an actual profile: the
low-speed branch when `avgSpeed < optimalSpeed`, the drag branch
otherwise. -/
def efficiencyFactorOf (vehicle : VehicleProfile) (avgSpeed : ℚ) : ℚ :=
  if avgSpeed < vehicle.optimalSpeed then trafficPenaltyFactor vehicle avgSpeed
  else dragPenaltyFactor vehicle avgSpeed

/-- The record returned by `calculateFuel` (lines 100-104); `fuelUsed` and
`efficiencyFactor` can be NaN (for an inherited lookup), `avgSpeed` is
always finite. -/
structure FuelStats where
  fuelUsed : Option ℚ
  avgSpeed : ℤ
  efficiencyFactor : Option ℚ
deriving Repr, DecidableEq

/-- `calculateFuel(route, vehicleType)` of `server.js` lines 69-105 with
JS number semantics: when the resolved `vehicle` is an inherited member of
`Object.prototype`, `vehicle.optimalSpeed` is undefined, the branch test
`avgSpeed < vehicle.optimalSpeed` is false (NaN comparison), and the drag
branch computes `avgSpeed - undefined = NaN`, making `efficiencyFactor`
and `fuelUsed` NaN. -/
def calculateFuel (route : RouteCandidate) (vehicleType : String) : FuelStats :=
  let vehicle := resolveVehicle vehicleType
  let distanceKm := route.distance / 1000
  let avgSpeed := avgSpeedOf route
  let efficiencyFactor : Option ℚ :=
    if jsLtB (some avgSpeed) vehicle.optimalSpeedJs then
      jsAdd (some 1)
        (jsMul ((jsSub vehicle.optimalSpeedJs (some avgSpeed)).map fun d => d / 20)
          (some (2/10)))
    else
      jsAdd (some 1)
        (jsMul ((jsSub (some avgSpeed) vehicle.optimalSpeedJs).map fun d => d / 30)
          (some (1/10)))
  let fuelUsed :=
    jsMul (jsMul (some (distanceKm / 100)) vehicle.baseConsumptionJs) efficiencyFactor
  { fuelUsed := toFixedValJs 2 fuelUsed
    avgSpeed := jsRound avgSpeed
    efficiencyFactor := toFixedValJs 2 efficiencyFactor }

/-- Division of finite JS numbers that signals the IEEE hazard: `none`
stands for the Infinity/NaN a division by zero would produce. -/
def jsDiv (x y : ℚ) : Option ℚ := if y = 0 then none else some (x / y)

/-- Division of a possibly-NaN numerator by a finite constant, checked for
the division-by-zero hazard: the outer `none` means a division by zero was
evaluated; `NaN / c` for `c ≠ 0` is NaN, not a division-by-zero. -/
def jsDivChecked (x : Option ℚ) (y : ℚ) : Option (Option ℚ) :=
  if y = 0 then none else some (x.map fun a => a / y)

/-- `calculateFuel` with every division checked: it returns `some` exactly
when no division by zero is evaluated, so a `some` result certifies that
any NaN in the output comes from undefined-profile arithmetic, never from
dividing by zero. -/
def calculateFuelChecked (route : RouteCandidate) (vehicleType : String) :
    Option FuelStats :=
  let vehicle := resolveVehicle vehicleType
  (jsDiv route.distance 1000).bind fun distanceKm =>
  (jsDiv route.duration 3600).bind fun durationHr =>
  (if durationHr > 0 then jsDiv distanceKm durationHr else some 0).bind
  fun avgSpeed =>
  (if jsLtB (some avgSpeed) vehicle.optimalSpeedJs then
      (jsDivChecked (jsSub vehicle.optimalSpeedJs (some avgSpeed)) 20).map fun d =>
        jsAdd (some 1) (jsMul d (some (2/10)))
    else
      (jsDivChecked (jsSub (some avgSpeed) vehicle.optimalSpeedJs) 30).map fun d =>
        jsAdd (some 1) (jsMul d (some (1/10)))).bind
  fun efficiencyFactor =>
  (jsDiv distanceKm 100).map fun dHundred =>
  { fuelUsed := toFixedValJs 2
      (jsMul (jsMul (some dHundred) vehicle.baseConsumptionJs) efficiencyFactor)
    avgSpeed := jsRound avgSpeed
    efficiencyFactor := toFixedValJs 2 efficiencyFactor }

/-- One element of `processedRoutes` (lines 162-172 of `server.js`): note
the field set -- there is no `efficiencyFactor` field. String-valued fields
are exactly the ones built with `toFixed`; `fuelUsedLiters` and `score`
are JS numbers and can be NaN. -/
structure RankedRoute where
  id : ℕ
  geometry : ℕ
  distanceKm : String
  durationMin : String
  fuelUsedLiters : Option ℚ
  fuelCost : String
  avgSpeed : ℤ
  isFastest : Bool
  score : Option ℚ
deriving Repr, DecidableEq

/-- The body of the `map` at lines 158-173: annotate the candidate at
ordinal `index`. `fuelPrice` is `Option`-valued because the request field
may be absent; `fuelPrice || 0` is `Option.getD 0`. -/
def processRoute (vehicleType : String) (fuelPrice : Option ℚ) (index : ℕ)
    (route : RouteCandidate) : RankedRoute :=
  let fuelStats := calculateFuel route vehicleType
  let cost := jsMul fuelStats.fuelUsed (some (fuelPrice.getD 0))
  { id := index
    geometry := route.geometry
    distanceKm := toFixedStr 1 (route.distance / 1000)
    durationMin := toFixedStr 0 (route.duration / 60)
    fuelUsedLiters := fuelStats.fuelUsed
    fuelCost := toFixedStrJs 0 cost
    avgSpeed := fuelStats.avgSpeed
    isFastest := index == 0
    score := fuelStats.fuelUsed }

/-- `processedRoutes` (lines 158-173): map each candidate with its 0-based
index. -/
def processedRoutes (routes : List RouteCandidate) (vehicleType : String)
    (fuelPrice : Option ℚ) : List RankedRoute :=
  routes.enum.map fun p => processRoute vehicleType fuelPrice p.1 p.2

/-- Stable insertion used to model the stable `Array.prototype.sort` with
comparator `(a, b) => a.fuelUsedLiters - b.fuelUsedLiters`: per the
`SortCompare` algorithm an element moves past another only when the
comparator is strictly positive (a NaN result counts as 0), so
compare-equal and NaN-scored elements keep their original relative
order. -/
def insertByFuel (x : RankedRoute) : List RankedRoute → List RankedRoute
  | [] => [x]
  | y :: ys =>
    if jsLtB y.fuelUsedLiters x.fuelUsedLiters then y :: insertByFuel x ys
    else x :: y :: ys

/-- `sortedByFuel` (lines 175-177): a sorted copy of the processed list,
stable by construction of `insertByFuel`. -/
def sortedByFuel : List RankedRoute → List RankedRoute
  | [] => []
  | x :: xs => insertByFuel x (sortedByFuel xs)

/-- Line 183: `sortedByFuel[0].id`. On an empty array `sortedByFuel[0]` is
`undefined` and the member access throws a TypeError, modelled by
`Except.error`. -/
def bestFuelRouteId (processed : List RankedRoute) : Except String ℕ :=
  match (sortedByFuel processed).head? with
  | some r => Except.ok r.id
  | none => Except.error "TypeError"

/-- The route-calculation endpoint from the OSRM response onward (lines
154-188): an empty route list is rejected with 404 "No route found" before
the engine runs; a thrown TypeError is caught and mapped to a 500. -/
def calcRouteHandler (osrmRoutes : List RouteCandidate) (vehicleType : String)
    (fuelPrice : Option ℚ) : Except (ℕ × String) (List RankedRoute × ℕ) :=
  if osrmRoutes.length = 0 then Except.error (404, "No route found")
  else
    let processed := processedRoutes osrmRoutes vehicleType fuelPrice
    match bestFuelRouteId processed with
    | Except.ok ecoId => Except.ok (processed, ecoId)
    | Except.error _ => Except.error (500, "Internal Server Error")

/-- A JSON-like value, used to state which serialized fields are strings
and which are numbers; a JS number may be NaN (`num none`). -/
inductive JsValue where
  | num (q : Option ℚ)
  | str (s : String)
  | bool (b : Bool)
  | geom (g : ℕ)
deriving Repr, DecidableEq

/-- The serialized form of a `RankedRoute`: the key/value pairs of the
object literal at lines 162-172, in source order. -/
def RankedRoute.toJs (r : RankedRoute) : List (String × JsValue) :=
  [("id", JsValue.num (some (r.id : ℚ))),
   ("geometry", JsValue.geom r.geometry),
   ("distanceKm", JsValue.str r.distanceKm),
   ("durationMin", JsValue.str r.durationMin),
   ("fuelUsedLiters", JsValue.num r.fuelUsedLiters),
   ("fuelCost", JsValue.str r.fuelCost),
   ("avgSpeed", JsValue.num (some (r.avgSpeed : ℚ))),
   ("isFastest", JsValue.bool r.isFastest),
   ("score", JsValue.num r.score)]

/-- The digit-string step of `toFixed` on the already-selected integer, used
to evaluate `toFixedStr` once the rounding integer is known. -/
def toFixedStrNat (f : ℕ) (n : ℕ) : String :=
  if f = 0 then toString n
  else
    let s : String := toString n
    let s : String :=
      if s.length < f + 1 then
        String.mk (List.replicate (f + 1 - s.length) '0') ++ s
      else s
    s.take (s.length - f) ++ "." ++ s.drop (s.length - f)

lemma abs_halfUp_sub_le (x : ℚ) : |(⌊x + 1/2⌋ : ℚ) - x| ≤ 1/2 := by
  rw [abs_le]
  constructor
  · have h := Int.lt_floor_add_one (x + 1/2)
    linarith
  · have h := Int.floor_le (x + 1/2)
    linarith

lemma resolveVehicle_car : resolveVehicle "car" = JsVehicle.profile ⟨7, 80, 1/10⟩ := by
  simp [resolveVehicle, VEHICLES]

lemma resolveVehicle_constructor : resolveVehicle "constructor" = JsVehicle.inherited := by
  simp [resolveVehicle, VEHICLES, OBJECT_PROTOTYPE_KEYS]

lemma calculateFuel_profile_eq (route : RouteCandidate) (v : VehicleProfile)
    (vehicleType : String) (h : resolveVehicle vehicleType = JsVehicle.profile v) :
    calculateFuel route vehicleType =
      { fuelUsed := some (toFixedVal 2 (route.distance / 1000 / 100 * v.baseConsumption *
          efficiencyFactorOf v (avgSpeedOf route)))
        avgSpeed := jsRound (avgSpeedOf route)
        efficiencyFactor := some (toFixedVal 2 (efficiencyFactorOf v (avgSpeedOf route))) } := by
  by_cases hc : avgSpeedOf route < v.optimalSpeed
  · simp [calculateFuel, h, JsVehicle.optimalSpeedJs, JsVehicle.baseConsumptionJs, jsLtB,
      jsAdd, jsSub, jsMul, toFixedValJs, efficiencyFactorOf, trafficPenaltyFactor, hc]
  · simp [calculateFuel, h, JsVehicle.optimalSpeedJs, JsVehicle.baseConsumptionJs, jsLtB,
      jsAdd, jsSub, jsMul, toFixedValJs, efficiencyFactorOf, dragPenaltyFactor, hc]

lemma calculateFuel_inherited_eq (route : RouteCandidate) (vehicleType : String)
    (h : resolveVehicle vehicleType = JsVehicle.inherited) :
    calculateFuel route vehicleType =
      { fuelUsed := none, avgSpeed := jsRound (avgSpeedOf route), efficiencyFactor := none } := by
  simp [calculateFuel, h, JsVehicle.optimalSpeedJs, JsVehicle.baseConsumptionJs, jsLtB,
    jsSub, jsAdd, jsMul, toFixedValJs]

lemma calculateFuelChecked_eq (route : RouteCandidate) (vehicleType : String) :
    calculateFuelChecked route vehicleType = some (calculateFuel route vehicleType) := by
  have h20 : (20 : ℚ) ≠ 0 := by norm_num
  have h30 : (30 : ℚ) ≠ 0 := by norm_num
  have h100 : (100 : ℚ) ≠ 0 := by norm_num
  have h1000 : (1000 : ℚ) ≠ 0 := by norm_num
  have h3600 : (3600 : ℚ) ≠ 0 := by norm_num
  by_cases hd : route.duration / 3600 > 0
  · cases hlt : jsLtB (some (route.distance / 1000 / (route.duration / 3600)))
        (resolveVehicle vehicleType).optimalSpeedJs
    · simp [calculateFuelChecked, calculateFuel, avgSpeedOf, jsDiv, jsDivChecked, hd, hlt,
        ne_of_gt hd, h20, h30, h100, h1000, h3600]
    · simp [calculateFuelChecked, calculateFuel, avgSpeedOf, jsDiv, jsDivChecked, hd, hlt,
        ne_of_gt hd, h20, h30, h100, h1000, h3600]
  · cases hlt : jsLtB (some (0 : ℚ)) (resolveVehicle vehicleType).optimalSpeedJs
    · simp [calculateFuelChecked, calculateFuel, avgSpeedOf, jsDiv, jsDivChecked, hd, hlt,
        h20, h30, h100, h1000, h3600]
    · simp [calculateFuelChecked, calculateFuel, avgSpeedOf, jsDiv, jsDivChecked, hd, hlt,
        h20, h30, h100, h1000, h3600]

lemma toFixedStr_nonneg_eq (f : ℕ) (x : ℚ) (hx : ¬ x < 0) :
    toFixedStr f x = toFixedStrNat f (toFixedInt f x).toNat := by
  by_cases hf : f = 0 <;> simp [toFixedStr, toFixedStrNat, hx, hf]

lemma toFixedVal_nonneg_eq (f : ℕ) (x : ℚ) (hx : 0 ≤ x) :
    toFixedVal f x = (⌊x * (10 : ℚ) ^ f + 1/2⌋ : ℚ) / (10 : ℚ) ^ f := by
  rw [toFixedVal, toFixedInt, abs_of_nonneg hx, if_neg (not_lt.mpr hx), one_mul]

lemma processRoute_fuelCost (vehicleType : String) (fuelPrice : Option ℚ)
    (index : ℕ) (route : RouteCandidate) :
    (processRoute vehicleType fuelPrice index route).fuelCost =
      toFixedStrJs 0 (jsMul (calculateFuel route vehicleType).fuelUsed
        (some (fuelPrice.getD 0))) := rfl

lemma processRoute_fuelUsedLiters (vehicleType : String) (fuelPrice : Option ℚ)
    (index : ℕ) (route : RouteCandidate) :
    (processRoute vehicleType fuelPrice index route).fuelUsedLiters =
      (calculateFuel route vehicleType).fuelUsed := rfl

lemma calculateFuel_avgSpeed (route : RouteCandidate) (vehicleType : String) :
    (calculateFuel route vehicleType).avgSpeed = jsRound (avgSpeedOf route) := rfl

lemma avgSpeed_car_example : avgSpeedOf ⟨100000, 3600, 0⟩ = 100 := by
  norm_num [avgSpeedOf]

lemma efficiency_car_100 : efficiencyFactorOf (⟨7, 80, 1/10⟩ : VehicleProfile) 100 = 16/15 := by
  norm_num [efficiencyFactorOf, trafficPenaltyFactor, dragPenaltyFactor]

lemma fuelUsed_car_example :
    (calculateFuel ⟨100000, 3600, 0⟩ "car").fuelUsed = some (747/100) := by
  rw [calculateFuel_profile_eq ⟨100000, 3600, 0⟩ ⟨7, 80, 1/10⟩ "car" resolveVehicle_car]
  rw [show ((⟨100000, 3600, 0⟩ : RouteCandidate).distance / 1000 / 100 *
      (⟨7, 80, 1/10⟩ : VehicleProfile).baseConsumption *
      efficiencyFactorOf ⟨7, 80, 1/10⟩ (avgSpeedOf ⟨100000, 3600, 0⟩)) = 112/15 by
    rw [avgSpeed_car_example, efficiency_car_100]; norm_num]
  rw [toFixedVal_nonneg_eq 2 _ (by norm_num)]
  norm_num [Int.floor_eq_iff]

lemma fuelCost_car_example :
    (processRoute "car" (some 25000) 0 ⟨100000, 3600, 0⟩).fuelCost = "186750" := by
  rw [processRoute_fuelCost, fuelUsed_car_example]
  rw [show jsMul (some ((747:ℚ)/100)) (some ((some (25000:ℚ)).getD 0)) = some 186750 by
    simp [jsMul]; norm_num]
  show toFixedStr 0 186750 = "186750"
  rw [toFixedStr_nonneg_eq 0 _ (by norm_num)]
  rw [show toFixedInt 0 (186750 : ℚ) = (186750 : ℤ) by norm_num [toFixedInt]]
  rfl

/-- C2 counterexample: on the spec's own end-to-end example (distance
100000 m, duration 3600 s, category car, fuelPrice 25000) the engine's
`fuelCost` is "186750" -- the cost of the two-decimal-rounded fuel value
7.47 L -- and not the claimed 186,667 (which would be the cost of the
unrounded 7.4667 L). -/
theorem C2_fuelCost_counterexample :
    (processRoute "car" (some 25000) 0 ⟨100000, 3600, 0⟩).fuelCost = "186750" ∧
    (processRoute "car" (some 25000) 0 ⟨100000, 3600, 0⟩).fuelCost ≠ "186667" := by
  refine ⟨fuelCost_car_example, ?_⟩
  rw [fuelCost_car_example]
  decide

/-- C2 (amended): for distance 100000 m and duration 3600 s under category
car with fuelPrice 25000, the engine resolves the car profile, computes
avgSpeed = 100, internal efficiencyFactor 16/15 = 1.0667, fuelUsedLiters
7.47 after two-decimal rounding, and fuelCost "186750": the cost is
`7.47 * 25000` computed from the post-rounding fuel value, not ≈186,667
from the unrounded value. -/
theorem C2_end_to_end_example :
    avgSpeedOf ⟨100000, 3600, 0⟩ = 100 ∧
    resolveVehicle "car" = JsVehicle.profile ⟨7, 80, 1/10⟩ ∧
    efficiencyFactorOf ⟨7, 80, 1/10⟩ 100 = 16/15 ∧
    (calculateFuel ⟨100000, 3600, 0⟩ "car").fuelUsed = some (747/100) ∧
    (calculateFuel ⟨100000, 3600, 0⟩ "car").avgSpeed = 100 ∧
    (processRoute "car" (some 25000) 0 ⟨100000, 3600, 0⟩).fuelUsedLiters = some (747/100) ∧
    (processRoute "car" (some 25000) 0 ⟨100000, 3600, 0⟩).fuelCost = "186750" := by
  refine ⟨avgSpeed_car_example, resolveVehicle_car, efficiency_car_100,
    fuelUsed_car_example, ?_, ?_, fuelCost_car_example⟩
  · rw [calculateFuel_avgSpeed, avgSpeed_car_example, jsRound]
    norm_num [Int.floor_eq_iff]
  · rw [processRoute_fuelUsedLiters]
    exact fuelUsed_car_example

/-- C5 counterexample: for a zero-duration route under
vehicleType = "constructor" (a truthy member inherited from
Object.prototype, so the car fallback does not trigger), the program's
fuelUsed and efficiencyFactor are NaN -- the claim that the results are
finite numbers, never NaN, is false; only avgSpeed is still 0. -/
theorem C5_nan_counterexample :
    (calculateFuel ⟨100000, 0, 0⟩ "constructor").fuelUsed = none ∧
    (calculateFuel ⟨100000, 0, 0⟩ "constructor").efficiencyFactor = none ∧
    (calculateFuel ⟨100000, 0, 0⟩ "constructor").avgSpeed = 0 := by
  rw [calculateFuel_inherited_eq ⟨100000, 0, 0⟩ "constructor" resolveVehicle_constructor]
  refine ⟨rfl, rfl, ?_⟩
  show jsRound (avgSpeedOf ⟨100000, 0, 0⟩) = 0
  rw [show avgSpeedOf ⟨100000, 0, 0⟩ = 0 by norm_num [avgSpeedOf], jsRound]
  norm_num [Int.floor_eq_iff]

/-- C5 (amended): for a route with durationSeconds = 0 the engine takes
the guarded branch, so the average speed is the sentinel 0 (also after
`Math.round`) and the fully division-checked evaluation succeeds: no
division by zero is ever evaluated. When the category resolves to an
actual profile the fuel and efficiency outputs are finite rationals; for
a category naming an Object.prototype property they are NaN, produced by
undefined-profile arithmetic, not by division. -/
theorem C5_zero_duration_safe (route : RouteCandidate) (vehicleType : String)
    (h : route.duration = 0) :
    avgSpeedOf route = 0 ∧
    (calculateFuel route vehicleType).avgSpeed = 0 ∧
    calculateFuelChecked route vehicleType = some (calculateFuel route vehicleType) ∧
    (∀ v, resolveVehicle vehicleType = JsVehicle.profile v →
      (calculateFuel route vehicleType).fuelUsed =
        some (toFixedVal 2 (route.distance / 1000 / 100 * v.baseConsumption *
          efficiencyFactorOf v 0)) ∧
      (calculateFuel route vehicleType).efficiencyFactor =
        some (toFixedVal 2 (efficiencyFactorOf v 0))) ∧
    (resolveVehicle vehicleType = JsVehicle.inherited →
      (calculateFuel route vehicleType).fuelUsed = none ∧
      (calculateFuel route vehicleType).efficiencyFactor = none) := by
  have havg : avgSpeedOf route = 0 := by simp [avgSpeedOf, h]
  refine ⟨havg, ?_, calculateFuelChecked_eq route vehicleType, ?_, ?_⟩
  · rw [calculateFuel_avgSpeed, havg, jsRound]
    norm_num [Int.floor_eq_iff]
  · intro v hv
    rw [calculateFuel_profile_eq route v vehicleType hv, havg]
    exact ⟨rfl, rfl⟩
  · intro hv
    rw [calculateFuel_inherited_eq route vehicleType hv]
    exact ⟨rfl, rfl⟩

/-- Witness for C5 at the concrete route (100000 m, 0 s) under car. -/
theorem C5_zero_duration_safe_witness :
    avgSpeedOf ⟨100000, 0, 0⟩ = 0 ∧
    (calculateFuel ⟨100000, 0, 0⟩ "car").avgSpeed = 0 ∧
    calculateFuelChecked ⟨100000, 0, 0⟩ "car" = some (calculateFuel ⟨100000, 0, 0⟩ "car") ∧
    (∀ v, resolveVehicle "car" = JsVehicle.profile v →
      (calculateFuel ⟨100000, 0, 0⟩ "car").fuelUsed =
        some (toFixedVal 2 ((⟨100000, 0, 0⟩ : RouteCandidate).distance / 1000 / 100 *
          v.baseConsumption * efficiencyFactorOf v 0)) ∧
      (calculateFuel ⟨100000, 0, 0⟩ "car").efficiencyFactor =
        some (toFixedVal 2 (efficiencyFactorOf v 0))) ∧
    (resolveVehicle "car" = JsVehicle.inherited →
      (calculateFuel ⟨100000, 0, 0⟩ "car").fuelUsed = none ∧
      (calculateFuel ⟨100000, 0, 0⟩ "car").efficiencyFactor = none) :=
  C5_zero_duration_safe ⟨100000, 0, 0⟩ "car" rfl

/-- C6 counterexample: "constructor" is not one of the three category
keys, yet resolution does not return the car profile -- the prototype
chain yields the truthy inherited constructor, so `|| VEHICLES.car` never
runs. -/
theorem C6_prototype_counterexample :
    resolveVehicle "constructor" = JsVehicle.inherited ∧
    resolveVehicle "constructor" ≠ JsVehicle.profile VEHICLES_car := by
  refine ⟨resolveVehicle_constructor, ?_⟩
  rw [resolveVehicle_constructor]
  exact fun hc => JsVehicle.noConfusion hc

/-- C6 (amended): profile resolution returns exactly the published
parameters for the three known keys, and the car profile for every other
string that is not a property name inherited from Object.prototype; for
the twelve inherited property names ("constructor", "toString",
"__proto__", ...) the truthy inherited member is returned and the car
fallback does not trigger. -/
theorem C6_registry_resolution :
    resolveVehicle "motorbike" = JsVehicle.profile ⟨5/2, 50, 1/20⟩ ∧
    resolveVehicle "car" = JsVehicle.profile ⟨7, 80, 1/10⟩ ∧
    resolveVehicle "truck" = JsVehicle.profile ⟨15, 70, 1/5⟩ ∧
    (∀ s : String, s ≠ "motorbike" → s ≠ "car" → s ≠ "truck" →
      s ∉ OBJECT_PROTOTYPE_KEYS → resolveVehicle s = JsVehicle.profile VEHICLES_car) ∧
    (∀ s ∈ OBJECT_PROTOTYPE_KEYS, resolveVehicle s = JsVehicle.inherited) := by
  refine ⟨by simp [resolveVehicle, VEHICLES], resolveVehicle_car,
    by simp [resolveVehicle, VEHICLES], ?_, ?_⟩
  · intro s h1 h2 h3 h4
    simp [resolveVehicle, VEHICLES, h1, h2, h3, h4]
  · intro s hs
    fin_cases hs <;> simp [resolveVehicle, VEHICLES, OBJECT_PROTOTYPE_KEYS]

/-- Witness for C6: the empty string resolves to the car profile. -/
theorem C6_registry_resolution_witness :
    resolveVehicle "" = JsVehicle.profile VEHICLES_car :=
  C6_registry_resolution.2.2.2.1 "" (by decide) (by decide) (by decide) (by decide)

lemma toFixedVal_den (f : ℕ) (x : ℚ) : ∃ n : ℤ, toFixedVal f x = (n : ℚ) / 10 ^ f := by
  rcases lt_or_le x 0 with hx | hx
  · exact ⟨-(toFixedInt f x), by rw [toFixedVal, if_pos hx]; push_cast; ring⟩
  · exact ⟨toFixedInt f x, by rw [toFixedVal, if_neg (not_lt.mpr hx)]; ring⟩

lemma toFixedVal_near (f : ℕ) (x : ℚ) : |toFixedVal f x - x| ≤ 1 / (2 * 10 ^ f) := by
  have hpow : (0:ℚ) < 10 ^ f := by positivity
  have h := abs_halfUp_sub_le (|x| * (10:ℚ) ^ f)
  have hn : ((toFixedInt f x : ℚ)) = (⌊|x| * (10:ℚ) ^ f + 1/2⌋ : ℚ) := rfl
  rcases lt_or_le x 0 with hx | hx
  · have hxa : |x| = -x := abs_of_neg hx
    have hval : toFixedVal f x - x = -((toFixedInt f x : ℚ) - |x| * 10 ^ f) / 10 ^ f := by
      rw [toFixedVal, if_pos hx, hxa]
      field_simp
      ring
    rw [hval, abs_div, abs_neg, abs_of_pos hpow, hn]
    calc |(⌊|x| * (10:ℚ) ^ f + 1/2⌋ : ℚ) - |x| * (10:ℚ) ^ f| / (10:ℚ) ^ f
        ≤ (1/2) / (10:ℚ) ^ f := (div_le_div_iff_of_pos_right hpow).mpr h
      _ = 1 / (2 * (10:ℚ) ^ f) := by ring
  · have hxa : |x| = x := abs_of_nonneg hx
    have hval : toFixedVal f x - x = ((toFixedInt f x : ℚ) - |x| * 10 ^ f) / 10 ^ f := by
      rw [toFixedVal, if_neg (not_lt.mpr hx), hxa]
      field_simp
      ring
    rw [hval, abs_div, abs_of_pos hpow, hn]
    calc |(⌊|x| * (10:ℚ) ^ f + 1/2⌋ : ℚ) - |x| * (10:ℚ) ^ f| / (10:ℚ) ^ f
        ≤ (1/2) / (10:ℚ) ^ f := (div_le_div_iff_of_pos_right hpow).mpr h
      _ = 1 / (2 * (10:ℚ) ^ f) := by ring

lemma insertByFuel_perm (x : RankedRoute) (l : List RankedRoute) :
    (insertByFuel x l).Perm (x :: l) := by
  induction l with
  | nil => exact List.Perm.refl _
  | cons y ys ih =>
    rw [insertByFuel]
    split_ifs with h
    · exact (List.Perm.cons y ih).trans (List.Perm.swap x y ys)
    · exact List.Perm.refl _

lemma sortedByFuel_perm (l : List RankedRoute) : (sortedByFuel l).Perm l := by
  induction l with
  | nil => exact List.Perm.refl _
  | cons x xs ih =>
    rw [sortedByFuel]
    exact (insertByFuel_perm x (sortedByFuel xs)).trans (List.Perm.cons x ih)

lemma processedRoutes_getElem? (routes : List RouteCandidate) (vehicleType : String)
    (fuelPrice : Option ℚ) (i : ℕ) :
    (processedRoutes routes vehicleType fuelPrice)[i]? =
      (routes[i]?).map (processRoute vehicleType fuelPrice i) := by
  simp [processedRoutes, List.getElem?_map, List.getElem?_enum, Option.map_map]
  rfl

/-- C3: for every route and vehicle profile, when the computed average
speed equals the profile's optimalSpeed the efficiency factor is exactly
1, the two branch formulas agree (the curve is continuous at the
boundary), and whenever the category actually resolves to that profile
the two-decimal rounded factor reported by `calculateFuel` is also
exactly 1. -/
theorem C3_boundary_efficiency (vehicle : VehicleProfile) (s : ℚ)
    (h : s = vehicle.optimalSpeed) :
    efficiencyFactorOf vehicle s = 1 ∧
    trafficPenaltyFactor vehicle s = dragPenaltyFactor vehicle s ∧
    (∀ (route : RouteCandidate) (vehicleType : String),
      resolveVehicle vehicleType = JsVehicle.profile vehicle →
      avgSpeedOf route = s →
      (calculateFuel route vehicleType).efficiencyFactor = some 1) := by
  have ht : trafficPenaltyFactor vehicle s = 1 := by rw [trafficPenaltyFactor, h]; ring
  have hd : dragPenaltyFactor vehicle s = 1 := by rw [dragPenaltyFactor, h]; ring
  have he : efficiencyFactorOf vehicle s = 1 := by
    rw [efficiencyFactorOf]
    split_ifs with hlt
    · exact ht
    · exact hd
  refine ⟨he, ht.trans hd.symm, ?_⟩
  intro route vehicleType hr ha
  rw [calculateFuel_profile_eq route vehicle vehicleType hr]
  show some (toFixedVal 2 (efficiencyFactorOf vehicle (avgSpeedOf route))) = some 1
  rw [ha, he, toFixedVal_nonneg_eq 2 1 (by norm_num)]
  norm_num [Int.floor_eq_iff]

/-- Witness for C3 at the car profile and its optimal speed of 80 km/h. -/
theorem C3_boundary_efficiency_witness :
    efficiencyFactorOf ⟨7, 80, 1/10⟩ 80 = 1 ∧
    trafficPenaltyFactor ⟨7, 80, 1/10⟩ 80 = dragPenaltyFactor ⟨7, 80, 1/10⟩ 80 ∧
    (∀ (route : RouteCandidate) (vehicleType : String),
      resolveVehicle vehicleType = JsVehicle.profile ⟨7, 80, 1/10⟩ →
      avgSpeedOf route = 80 →
      (calculateFuel route vehicleType).efficiencyFactor = some 1) :=
  C3_boundary_efficiency ⟨7, 80, 1/10⟩ 80 rfl

/-- C4: for every vehicle profile the efficiency factor is strictly
decreasing in average speed below optimalSpeed, strictly increasing above
it, and optimalSpeed is a strict global minimum of the curve. -/
theorem C4_efficiency_strict_min (vehicle : VehicleProfile) (s₁ s₂ : ℚ) :
    (s₁ < s₂ → s₂ ≤ vehicle.optimalSpeed →
      efficiencyFactorOf vehicle s₂ < efficiencyFactorOf vehicle s₁) ∧
    (vehicle.optimalSpeed ≤ s₁ → s₁ < s₂ →
      efficiencyFactorOf vehicle s₁ < efficiencyFactorOf vehicle s₂) ∧
    (s₁ ≠ vehicle.optimalSpeed →
      efficiencyFactorOf vehicle vehicle.optimalSpeed < efficiencyFactorOf vehicle s₁) := by
  refine ⟨?_, ?_, ?_⟩
  · intro h12 h2
    rw [efficiencyFactorOf, efficiencyFactorOf]
    split_ifs with ha hb hb
    · rw [trafficPenaltyFactor, trafficPenaltyFactor]
      linarith
    · rw [trafficPenaltyFactor, dragPenaltyFactor]
      linarith
    · rw [dragPenaltyFactor, trafficPenaltyFactor]
      linarith
    · rw [dragPenaltyFactor, dragPenaltyFactor]
      linarith
  · intro h1 h12
    rw [efficiencyFactorOf, efficiencyFactorOf]
    split_ifs with ha hb hb
    · rw [trafficPenaltyFactor, trafficPenaltyFactor]
      linarith
    · rw [trafficPenaltyFactor, dragPenaltyFactor]
      linarith
    · rw [dragPenaltyFactor, trafficPenaltyFactor]
      linarith
    · rw [dragPenaltyFactor, dragPenaltyFactor]
      linarith
  · intro hne
    have heq : efficiencyFactorOf vehicle vehicle.optimalSpeed = 1 := by
      rw [efficiencyFactorOf, if_neg (lt_irrefl _), dragPenaltyFactor]; ring
    rw [heq, efficiencyFactorOf]
    split_ifs with ha
    · rw [trafficPenaltyFactor]
      linarith
    · have hgt : vehicle.optimalSpeed < s₁ := lt_of_le_of_ne (not_lt.mp ha) (Ne.symm hne)
      rw [dragPenaltyFactor]
      linarith

/-- C7: the returned collection preserves input order. Element `i` of
`processedRoutes` is exactly the annotation of input candidate `i`, whose
`id` is `i`; the sorted list is merely a permutation of a copy (the sort
derives `bestFuelRouteId` only); and whenever the handler answers
successfully, the `routes` collection it returns is the original unsorted
`processedRoutes`, not the sorted copy. -/
theorem C7_order_preserved (routes : List RouteCandidate) (vehicleType : String)
    (fuelPrice : Option ℚ) :
    (processedRoutes routes vehicleType fuelPrice).length = routes.length ∧
    (∀ i : ℕ, (processedRoutes routes vehicleType fuelPrice)[i]? =
      (routes[i]?).map (processRoute vehicleType fuelPrice i)) ∧
    (∀ i : ℕ, ((processedRoutes routes vehicleType fuelPrice)[i]?.map RankedRoute.id) =
      if i < routes.length then some i else none) ∧
    (sortedByFuel (processedRoutes routes vehicleType fuelPrice)).Perm
      (processedRoutes routes vehicleType fuelPrice) ∧
    (∀ processed best,
      calcRouteHandler routes vehicleType fuelPrice = Except.ok (processed, best) →
      processed = processedRoutes routes vehicleType fuelPrice) := by
  refine ⟨?_, processedRoutes_getElem? routes vehicleType fuelPrice, ?_, sortedByFuel_perm _, ?_⟩
  · simp [processedRoutes, List.enum_length]
  · intro i
    rw [processedRoutes_getElem?]
    by_cases hi : i < routes.length
    · rw [List.getElem?_eq_getElem hi, if_pos hi]
      rfl
    · rw [List.getElem?_eq_none (le_of_not_lt hi), if_neg hi]
      rfl
  · intro processed best h
    rw [calcRouteHandler] at h
    by_cases hlen : routes.length = 0
    · rw [if_pos hlen] at h
      cases h
    · rw [if_neg hlen] at h
      cases hb : bestFuelRouteId (processedRoutes routes vehicleType fuelPrice) with
      | ok ecoId =>
        simp only [hb, Except.ok.injEq, Prod.mk.injEq] at h
        exact h.1.symm
      | error e =>
        simp only [hb] at h
        exact Except.noConfusion h

/-- C8 counterexample: on the empty route list the per-route mapping is
empty, but deriving `bestFuelRouteId` does not yield an undefined/null id
without error -- `sortedByFuel[0].id` throws a TypeError. -/
theorem C8_empty_counterexample :
    processedRoutes [] "car" none = [] ∧
    bestFuelRouteId (processedRoutes [] "car" none) = Except.error "TypeError" :=
  ⟨rfl, rfl⟩

/-- C8 (amended): for the empty input list the mapping yields an empty
rankedRoutes, but evaluating `bestFuelRouteId` on the empty set throws a
TypeError instead of returning undefined/null; the surrounding handler
rejects an empty OSRM route list with 404 "No route found" before the
engine code runs, so 'no route found' classification happens in the HTTP
layer, not by returning an empty result. -/
theorem C8_empty_input (vehicleType : String) (fuelPrice : Option ℚ) :
    processedRoutes [] vehicleType fuelPrice = [] ∧
    bestFuelRouteId (processedRoutes [] vehicleType fuelPrice) = Except.error "TypeError" ∧
    calcRouteHandler [] vehicleType fuelPrice = Except.error (404, "No route found") :=
  ⟨rfl, rfl, rfl⟩

/-- C9 counterexample: the serialized RankedRoute for a concrete input
carries exactly nine fields and `efficiencyFactor` is not among them, so a
RankedRoute does not carry all four display fields claimed. -/
theorem C9_missing_efficiencyFactor_counterexample :
    ((processRoute "car" (some 25000) 0 ⟨100000, 3600, 0⟩).toJs.map Prod.fst) =
      ["id", "geometry", "distanceKm", "durationMin", "fuelUsedLiters",
       "fuelCost", "avgSpeed", "isFastest", "score"] ∧
    "efficiencyFactor" ∉
      ((processRoute "car" (some 25000) 0 ⟨100000, 3600, 0⟩).toJs.map Prod.fst) := by
  refine ⟨rfl, ?_⟩
  decide

/-- C9 (amended): every RankedRoute carries `distanceKm` rounded to one
decimal (the rounded value is a multiple of 1/10 within 1/20 of the exact
kilometres), `durationMin` rounded to a whole minute (an integer within 1/2
of `durationSeconds / 60`), and `avgSpeed` rounded to the nearest integer;
when the category resolves to an actual profile the efficiency factor is
rounded to two decimals inside `calculateFuel`, but it is not a field of
the returned RankedRoute. -/
theorem C9_display_fields (route : RouteCandidate) (vehicleType : String)
    (fuelPrice : Option ℚ) (index : ℕ) :
    (processRoute vehicleType fuelPrice index route).distanceKm =
      toFixedStr 1 (route.distance / 1000) ∧
    (∃ n : ℤ, toFixedVal 1 (route.distance / 1000) = (n : ℚ) / 10) ∧
    |toFixedVal 1 (route.distance / 1000) - route.distance / 1000| ≤ 1/20 ∧
    (processRoute vehicleType fuelPrice index route).durationMin =
      toFixedStr 0 (route.duration / 60) ∧
    (∃ n : ℤ, toFixedVal 0 (route.duration / 60) = (n : ℚ)) ∧
    |toFixedVal 0 (route.duration / 60) - route.duration / 60| ≤ 1/2 ∧
    (processRoute vehicleType fuelPrice index route).avgSpeed = jsRound (avgSpeedOf route) ∧
    |(jsRound (avgSpeedOf route) : ℚ) - avgSpeedOf route| ≤ 1/2 ∧
    (∀ v, resolveVehicle vehicleType = JsVehicle.profile v →
      (calculateFuel route vehicleType).efficiencyFactor =
        some (toFixedVal 2 (efficiencyFactorOf v (avgSpeedOf route)))) ∧
    "efficiencyFactor" ∉
      ((processRoute vehicleType fuelPrice index route).toJs.map Prod.fst) := by
  refine ⟨rfl, ?_, ?_, rfl, ?_, ?_, rfl, ?_, ?_, ?_⟩
  · obtain ⟨n, hn⟩ := toFixedVal_den 1 (route.distance / 1000)
    exact ⟨n, by rw [hn]; norm_num⟩
  · have h := toFixedVal_near 1 (route.distance / 1000)
    calc |toFixedVal 1 (route.distance / 1000) - route.distance / 1000|
        ≤ 1 / (2 * (10:ℚ) ^ 1) := h
      _ = 1/20 := by norm_num
  · obtain ⟨n, hn⟩ := toFixedVal_den 0 (route.duration / 60)
    exact ⟨n, by rw [hn]; norm_num⟩
  · have h := toFixedVal_near 0 (route.duration / 60)
    calc |toFixedVal 0 (route.duration / 60) - route.duration / 60|
        ≤ 1 / (2 * (10:ℚ) ^ 0) := h
      _ = 1/2 := by norm_num
  · exact abs_halfUp_sub_le (avgSpeedOf route)
  · intro v hv
    rw [calculateFuel_profile_eq route v vehicleType hv]
  · simp [RankedRoute.toJs]

/-- C10: in the serialized RankedRoute the fields distanceKm, durationMin
and fuelCost are strings (built by `toFixed`), while fuelUsedLiters,
avgSpeed and score are JS numbers (NaN included), and score carries
exactly the same value as fuelUsedLiters; a consumer reading fuelCost as
a number must parse the string. -/
theorem C10_serialized_field_types (route : RouteCandidate) (vehicleType : String)
    (fuelPrice : Option ℚ) (index : ℕ) :
    (∃ s, (processRoute vehicleType fuelPrice index route).toJs.lookup "distanceKm" =
      some (JsValue.str s)) ∧
    (∃ s, (processRoute vehicleType fuelPrice index route).toJs.lookup "durationMin" =
      some (JsValue.str s)) ∧
    (∃ s, (processRoute vehicleType fuelPrice index route).toJs.lookup "fuelCost" =
      some (JsValue.str s)) ∧
    (∃ q, (processRoute vehicleType fuelPrice index route).toJs.lookup "fuelUsedLiters" =
      some (JsValue.num q)) ∧
    (∃ q, (processRoute vehicleType fuelPrice index route).toJs.lookup "avgSpeed" =
      some (JsValue.num q)) ∧
    (∃ q, (processRoute vehicleType fuelPrice index route).toJs.lookup "score" =
      some (JsValue.num q)) ∧
    (processRoute vehicleType fuelPrice index route).score =
      (processRoute vehicleType fuelPrice index route).fuelUsedLiters := by
  exact ⟨⟨_, rfl⟩, ⟨_, rfl⟩, ⟨_, rfl⟩, ⟨_, rfl⟩, ⟨_, rfl⟩, ⟨_, rfl⟩, rfl⟩

lemma head?_some_eq_cons {α : Type _} {l : List α} {a : α} (h : l.head? = some a) :
    ∃ t, l = a :: t := by
  cases l with
  | nil => cases h
  | cons x xs =>
    injection h with h1
    exact ⟨xs, by rw [h1]⟩

lemma sortedByFuel_head_firstMin (l : List RankedRoute)
    (hall : ∀ y ∈ l, ∃ q : ℚ, y.fuelUsedLiters = some q) (hne : l ≠ []) :
    ∃ l₁ r l₂, l = l₁ ++ r :: l₂ ∧
      (sortedByFuel l).head? = some r ∧
      (∀ y ∈ l, jsLe r.fuelUsedLiters y.fuelUsedLiters) ∧
      (∀ y ∈ l₁, jsLt r.fuelUsedLiters y.fuelUsedLiters) := by
  induction l with
  | nil => exact absurd rfl hne
  | cons a as ih =>
    cases as with
    | nil =>
      obtain ⟨qa, hqa⟩ := hall a (List.mem_cons_self a [])
      refine ⟨[], a, [], rfl, rfl, ?_, ?_⟩
      · intro y hy
        rw [List.mem_singleton.mp hy, hqa]
        exact le_refl qa
      · intro y hy
        exact absurd hy (List.not_mem_nil y)
    | cons b bs =>
      have hallas : ∀ y ∈ b :: bs, ∃ q : ℚ, y.fuelUsedLiters = some q :=
        fun y hy => hall y (List.mem_cons_of_mem a hy)
      obtain ⟨m₁, r', m₂, heq, hhead, hmin, hstrict⟩ := ih hallas (by simp)
      obtain ⟨t, ht⟩ := head?_some_eq_cons hhead
      obtain ⟨qa, hqa⟩ := hall a (List.mem_cons_self a (b :: bs))
      have hr'mem : r' ∈ b :: bs := by
        rw [heq]
        exact List.mem_append.mpr (Or.inr (List.mem_cons_self r' m₂))
      obtain ⟨qr, hqr⟩ := hallas r' hr'mem
      have hs0 : sortedByFuel (a :: b :: bs) = insertByFuel a (sortedByFuel (b :: bs)) := rfl
      have hi : insertByFuel a (r' :: t) =
          if jsLtB r'.fuelUsedLiters a.fuelUsedLiters then r' :: insertByFuel a t
          else a :: r' :: t := rfl
      by_cases hgt : qr < qa
      · have hcond : jsLtB r'.fuelUsedLiters a.fuelUsedLiters = true := by
          rw [hqr, hqa]
          simp [jsLtB, hgt]
        refine ⟨a :: m₁, r', m₂, ?_, ?_, ?_, ?_⟩
        · rw [heq]
          rfl
        · rw [hs0, ht, hi, if_pos hcond]
          rfl
        · intro y hy
          rcases List.mem_cons.mp hy with h | hy'
          · rw [h, hqr, hqa]
            exact le_of_lt hgt
          · exact hmin y hy'
        · intro y hy
          rcases List.mem_cons.mp hy with h | hy'
          · rw [h, hqr, hqa]
            exact hgt
          · exact hstrict y hy'
      · have hcond : ¬ (jsLtB r'.fuelUsedLiters a.fuelUsedLiters = true) := by
          rw [hqr, hqa]
          simp [jsLtB, hgt]
        refine ⟨[], a, b :: bs, rfl, ?_, ?_, ?_⟩
        · rw [hs0, ht, hi, if_neg hcond]
          rfl
        · intro y hy
          rcases List.mem_cons.mp hy with h | hy'
          · rw [h, hqa]
            exact le_refl qa
          · obtain ⟨qy, hqy⟩ := hallas y hy'
            have h1 := hmin y hy'
            rw [hqr, hqy] at h1
            have h1' : qr ≤ qy := h1
            rw [hqa, hqy]
            exact le_trans (not_lt.mp hgt) h1'
        · intro y hy
          exact absurd hy (List.not_mem_nil y)

lemma processRoute_fuel_profile (vehicleType : String) (fuelPrice : Option ℚ)
    (index : ℕ) (route : RouteCandidate) (v : VehicleProfile)
    (hv : resolveVehicle vehicleType = JsVehicle.profile v) :
    (processRoute vehicleType fuelPrice index route).fuelUsedLiters =
      some (toFixedVal 2 (route.distance / 1000 / 100 * v.baseConsumption *
        efficiencyFactorOf v (avgSpeedOf route))) := by
  rw [processRoute_fuelUsedLiters, calculateFuel_profile_eq route v vehicleType hv]

lemma processedRoutes_fuel_some (routes : List RouteCandidate) (vehicleType : String)
    (fuelPrice : Option ℚ) (v : VehicleProfile)
    (hv : resolveVehicle vehicleType = JsVehicle.profile v) :
    ∀ y ∈ processedRoutes routes vehicleType fuelPrice,
      ∃ q : ℚ, y.fuelUsedLiters = some q := by
  intro y hy
  rw [processedRoutes] at hy
  obtain ⟨p, hp, hpe⟩ := List.mem_map.mp hy
  exact ⟨_, by rw [← hpe, processRoute_fuel_profile vehicleType fuelPrice p.1 p.2 v hv]⟩

lemma processedRoutes_map_id (routes : List RouteCandidate) (vehicleType : String)
    (fuelPrice : Option ℚ) :
    (processedRoutes routes vehicleType fuelPrice).map RankedRoute.id =
      List.range routes.length := by
  rw [processedRoutes, List.map_map]
  have h : (RankedRoute.id ∘ fun p => processRoute vehicleType fuelPrice p.1 p.2) =
      Prod.fst := by
    funext p
    rfl
  rw [h, List.enum_map_fst]

lemma processedRoutes_pairwise_id (routes : List RouteCandidate) (vehicleType : String)
    (fuelPrice : Option ℚ) :
    (processedRoutes routes vehicleType fuelPrice).Pairwise fun x y => x.id < y.id := by
  have h := List.pairwise_lt_range routes.length
  rw [← processedRoutes_map_id routes vehicleType fuelPrice] at h
  exact List.pairwise_map.mp h

/-- C1 counterexample: for a single-route list under
vehicleType = "constructor" (a prototype-inherited lookup) the program
still answers bestFuelRouteId = 0, but the returned route's
fuelUsedLiters is NaN, and a NaN score is not minimal under the JS order
(it is not even ≤ itself), so no route of the returned set has minimal
fuelUsedLiters and the claim as stated fails. -/
theorem C1_nan_counterexample :
    bestFuelRouteId (processedRoutes [⟨100000, 3600, 0⟩] "constructor" (some 25000)) =
      Except.ok 0 ∧
    (∀ r ∈ processedRoutes [⟨100000, 3600, 0⟩] "constructor" (some 25000),
      r.fuelUsedLiters = none ∧ ¬ jsLe r.fuelUsedLiters r.fuelUsedLiters) := by
  constructor
  · rfl
  · intro r hr
    have hsing : processedRoutes [⟨100000, 3600, 0⟩] "constructor" (some 25000) =
        [processRoute "constructor" (some 25000) 0 ⟨100000, 3600, 0⟩] := rfl
    rw [hsing] at hr
    rw [List.mem_singleton.mp hr]
    have hfuel : (processRoute "constructor" (some 25000) 0
        ⟨100000, 3600, 0⟩).fuelUsedLiters = none := by
      rw [processRoute_fuelUsedLiters,
        calculateFuel_inherited_eq _ _ resolveVehicle_constructor]
    rw [hfuel]
    exact ⟨rfl, fun hc => hc⟩

/-- C1 (amended): for every non-empty input route list and every category
that resolves to an actual vehicle profile (every string except the
Object.prototype property names), `bestFuelRouteId` is the id of a
returned route whose `fuelUsedLiters` (the post-rounding score) is
minimal over the returned set, and among all routes sharing that minimal
value it has the lowest id (the first in input order): the stable sort
places the first minimal element at the head of the sorted copy. -/
theorem C1_best_is_min_fuel (routes : List RouteCandidate) (vehicleType : String)
    (fuelPrice : Option ℚ) (v : VehicleProfile)
    (hv : resolveVehicle vehicleType = JsVehicle.profile v) (hne : routes ≠ []) :
    ∃ r ∈ processedRoutes routes vehicleType fuelPrice,
      bestFuelRouteId (processedRoutes routes vehicleType fuelPrice) = Except.ok r.id ∧
      (∀ y ∈ processedRoutes routes vehicleType fuelPrice,
        jsLe r.fuelUsedLiters y.fuelUsedLiters) ∧
      (∀ y ∈ processedRoutes routes vehicleType fuelPrice,
        y.fuelUsedLiters = r.fuelUsedLiters → r.id ≤ y.id) := by
  have hlen0 : (processedRoutes routes vehicleType fuelPrice).length = routes.length := by
    simp [processedRoutes, List.enum_length]
  have hlen : processedRoutes routes vehicleType fuelPrice ≠ [] := by
    intro h
    exact hne (List.eq_nil_of_length_eq_zero (by rw [← hlen0, h, List.length_nil]))
  obtain ⟨l₁, r, l₂, heq, hhead, hmin, hstrict⟩ :=
    sortedByFuel_head_firstMin _
      (processedRoutes_fuel_some routes vehicleType fuelPrice v hv) hlen
  have hpair := processedRoutes_pairwise_id routes vehicleType fuelPrice
  have hrmem : r ∈ processedRoutes routes vehicleType fuelPrice := by
    rw [heq]
    exact List.mem_append.mpr (Or.inr (List.mem_cons_self r l₂))
  obtain ⟨qr, hqr⟩ :=
    processedRoutes_fuel_some routes vehicleType fuelPrice v hv r hrmem
  refine ⟨r, hrmem, ?_, hmin, ?_⟩
  · rw [bestFuelRouteId, hhead]
  · intro y hy hyf
    rw [heq] at hy hpair
    rcases List.mem_append.mp hy with hy1 | hy2
    · have hlt := hstrict y hy1
      rw [hyf, hqr] at hlt
      exact absurd hlt (lt_irrefl qr)
    · rcases List.mem_cons.mp hy2 with h | hy3
      · rw [h]
      · have hp2 := (List.pairwise_append.mp hpair).2.1
        exact le_of_lt (List.rel_of_pairwise_cons hp2 hy3)

/-- Witness for C1 on a concrete two-route input under car, where the
second route uses less fuel. -/
theorem C1_best_is_min_fuel_witness :
    ∃ r ∈ processedRoutes [⟨100000, 3600, 5⟩, ⟨90000, 3700, 6⟩] "car" (some 25000),
      bestFuelRouteId
        (processedRoutes [⟨100000, 3600, 5⟩, ⟨90000, 3700, 6⟩] "car" (some 25000)) =
        Except.ok r.id ∧
      (∀ y ∈ processedRoutes [⟨100000, 3600, 5⟩, ⟨90000, 3700, 6⟩] "car" (some 25000),
        jsLe r.fuelUsedLiters y.fuelUsedLiters) ∧
      (∀ y ∈ processedRoutes [⟨100000, 3600, 5⟩, ⟨90000, 3700, 6⟩] "car" (some 25000),
        y.fuelUsedLiters = r.fuelUsedLiters → r.id ≤ y.id) :=
  C1_best_is_min_fuel [⟨100000, 3600, 5⟩, ⟨90000, 3700, 6⟩] "car" (some 25000)
    ⟨7, 80, 1/10⟩ resolveVehicle_car (by simp)
